import Mathlib

/-!
Verification development for the space-aware qBittorrent dispatcher.

The definitions below are a shallow embedding of the routing core of the
repository: the scorer and evaluator (`app/dispatcher.py`), the request
tracker (`app/request_tracker.py`), the decision history, and the config
hot-reload endpoints (`app/main.py`).  Python floats are embedded as `ℚ`
(the claims under study are about branching and arithmetic structure, not
floating-point rounding), Python ints as `Int`, Python `None` as `Option`.
Wall-clock instants (`datetime.now()`) are values of `ℚ` measured in
seconds, so `timedelta(hours=24)` is `86400`.  Effectful collaborators
(HTTP probes, magnet submission, SHA-1 from `hashlib`, YAML parsing and
file writes) are passed in as explicit function arguments; notification
ports (`messaging`, `n8n`, quality checker) swallow their own errors in
the source and never touch the decision state, so they are omitted.
-/

namespace Dispatch

/-! ### Data model (`app/config.py`, `app/models.py`, `app/qb_client.py`) -/

structure NodeConfig where
  name : String
  url : String
  username : String
  password : String
  min_free_gb : ℚ
  weight : ℚ
deriving DecidableEq, Repr

structure SubmissionSettings where
  max_retries : Int
  save_path : Option String
deriving DecidableEq, Repr

structure DispatcherSettings where
  disk_weight : ℚ
  download_weight : ℚ
  bandwidth_weight : ℚ
  max_downloads : Int
  min_score : ℚ
  submission : SubmissionSettings
deriving DecidableEq, Repr

structure RequestTrackingConfig where
  enabled : Bool
  check_duplicates : Bool
  check_quality_profiles : Bool
  send_suggestions : Bool
deriving DecidableEq, Repr

structure AppConfig where
  dispatcher : DispatcherSettings
  nodes : List NodeConfig
  request_tracking : RequestTrackingConfig
deriving DecidableEq, Repr

/-- `qb_client.NodeState`: one telemetry sample from a node. -/
structure NodeState where
  free_disk_gb : Option ℚ
  active_downloads : Int
  paused_downloads : Int
  global_download_rate_mbps : ℚ
deriving DecidableEq, Repr

structure NodeMetrics where
  name : String
  free_disk_gb : Option ℚ
  active_downloads : Int
  paused_downloads : Int
  global_download_rate_mbps : ℚ
  reachable : Bool
  excluded_reason : Option String
  score : Option ℚ
deriving DecidableEq, Repr

structure SubmitRequest where
  name : String
  category : String
  size_estimate_gb : ℚ
  magnet : String
deriving DecidableEq, Repr

/-- `dispatcher.ScoredNode` (the `client` field carries no data in the model). -/
structure ScoredNode where
  config : NodeConfig
  state : Option NodeState
  metrics : NodeMetrics
  score : Option ℚ
  excluded : Bool
deriving DecidableEq, Repr

structure NodeStatus where
  metrics : NodeMetrics
  excluded : Bool
deriving DecidableEq, Repr

structure SubmitDecision where
  selected_node : Option String
  reason : String
  status : String
  attempted_nodes : List NodeMetrics
deriving DecidableEq, Repr

structure DecisionDebug where
  selected_node : Option String
  reason : String
  nodes : List NodeStatus
deriving DecidableEq, Repr

structure DecisionRecord where
  timestamp : ℚ
  request_name : String
  request_category : String
  size_estimate_gb : ℚ
  selected_node : Option String
  reason : String
  status : String
  attempted_nodes : List NodeMetrics
deriving DecidableEq, Repr

/-- `request_tracker.TrackedRequest`. -/
structure TrackedRequest where
  name : String
  category : String
  size_estimate_gb : ℚ
  magnet : String
  timestamp : ℚ
  source : Option String
  quality_profile : Option String
  selected_node : Option String
  status : String
deriving DecidableEq, Repr

/-- `RequestTracker`: `_requests` is an insertion-ordered dict (Python 3 dict),
`_by_category` a `defaultdict(list)`, both as association lists. -/
structure RequestTracker where
  requests : List (String × TrackedRequest)
  by_category : List (String × List String)
deriving DecidableEq, Repr

/-! ### Insertion-ordered dict operations (Python `dict` semantics) -/

/-- `m[k]` lookup; first matching key (keys are unique in all reachable states). -/
def dictLookup {α : Type} (m : List (String × α)) (k : String) : Option α :=
  match m with
  | [] => none
  | (k', v) :: rest => if k' = k then some v else dictLookup rest k

/-- `m[k] = v`: replace in place if the key is present (Python dicts keep the
original position), else append. -/
def dictSet {α : Type} (m : List (String × α)) (k : String) (v : α) :
    List (String × α) :=
  match m with
  | [] => [(k, v)]
  | (k', v') :: rest =>
    if k' = k then (k', v) :: rest else (k', v') :: dictSet rest k v

/-- `defaultdict(list)`: `m[k].append(x)`. -/
def dictAppend (m : List (String × List String)) (k : String) (x : String) :
    List (String × List String) :=
  match m with
  | [] => [(k, [x])]
  | (k', xs) :: rest =>
    if k' = k then (k', xs ++ [x]) :: rest else (k', xs) :: dictAppend rest k x

/-! ### Python `str.split` on a substring separator (`magnet.split("btih:")`)

`afterFirst sep s` is the remainder of `s` after the first occurrence of the
(nonempty) separator `sep`, or `none` if `sep` does not occur; `beforeFirst`
is the part of `s` strictly before that occurrence (all of `s` if absent).
`pySplit` iterates them and agrees with Python's `str.split` for a nonempty
separator; the fuel argument of `pySplitF` only drives the recursion. -/

def afterFirst (sep : List Char) : List Char → Option (List Char)
  | [] => none
  | c :: rest =>
    if sep.isPrefixOf (c :: rest) then some (List.drop sep.length (c :: rest))
    else afterFirst sep rest

def beforeFirst (sep : List Char) : List Char → List Char
  | [] => []
  | c :: rest =>
    if sep.isPrefixOf (c :: rest) then [] else c :: beforeFirst sep rest

/-- The `in` test of Python: `sep in s`. -/
def strContains (sep s : List Char) : Bool := (afterFirst sep s).isSome

def pySplitF : Nat → List Char → List Char → List (List Char)
  | 0, _, s => [s]
  | fuel + 1, sep, s =>
    if sep.isEmpty then [s]
    else
      match afterFirst sep s with
      | none => [s]
      | some rest => beforeFirst sep s :: pySplitF fuel sep rest

/-- Python `s.split(sep)` for a nonempty separator. -/
def pySplit (sep s : List Char) : List (List Char) :=
  pySplitF (s.length + 1) sep s

/-! ### `RequestTracker._generate_request_id` and the tracker operations

`hashlib.sha1(magnet.encode()).hexdigest()` is a library call; it enters the
embedding as the function argument `sha1hex`. -/

/-- `RequestTracker._generate_request_id(magnet)`:
if `"btih:" in magnet`, `magnet.split("btih:")[1].split("&")[0][:40]`,
else the SHA-1 hex digest of the whole magnet. -/
def generate_request_id (sha1hex : String → String) (magnet : String) : String :=
  let m := magnet.data
  if strContains "btih:".data m then
    let parts := pySplit "btih:".data m
    if parts.length > 1 then
      String.mk (((pySplit "&".data (parts.getD 1 [])).headD []).take 40)
    else sha1hex magnet
  else sha1hex magnet

/-- The dedup key exactly as claim C5 words it: "if the magnet contains
`btih:`, the first 40 characters of the substring after the first `btih:`
and before the next `&`; otherwise the SHA-1 hex digest of the full magnet
string". -/
def claimKeyC5 (sha1hex : String → String) (magnet : String) : String :=
  match afterFirst "btih:".data magnet.data with
  | some rest => String.mk ((beforeFirst "&".data rest).take 40)
  | none => sha1hex magnet

/-- The dedup key as the amended claim words it: the segment after the first
`btih:` is additionally cut at the next occurrence of `btih:` (Python's
`split` yields the piece between the first and second occurrence) before
being cut at the first `&` and truncated to 40 characters. -/
def amendedKeyC5 (sha1hex : String → String) (magnet : String) : String :=
  match afterFirst "btih:".data magnet.data with
  | some rest =>
    String.mk ((beforeFirst "&".data (beforeFirst "btih:".data rest)).take 40)
  | none => sha1hex magnet

/-- `RequestTracker.is_duplicate(req)`: look the key up; a hit whose
insertion time is within the last 24 hours (86400 s) is a duplicate. -/
def is_duplicate (sha1hex : String → String) (now : ℚ) (tr : RequestTracker)
    (req : SubmitRequest) : Bool × Option TrackedRequest :=
  let request_id := generate_request_id sha1hex req.magnet
  match dictLookup tr.requests request_id with
  | some existing =>
    if now - existing.timestamp < 86400 then (true, some existing)
    else (false, none)
  | none => (false, none)

/-- `RequestTracker.add_request(req, source, quality_profile, selected_node)`
at wall-clock instant `now` (the `datetime.now()` of the call). -/
def add_request (sha1hex : String → String) (now : ℚ) (tr : RequestTracker)
    (req : SubmitRequest) (source : Option String)
    (quality_profile : Option String) (selected_node : Option String) :
    String × RequestTracker :=
  let request_id := generate_request_id sha1hex req.magnet
  let tracked : TrackedRequest :=
    { name := req.name, category := req.category,
      size_estimate_gb := req.size_estimate_gb, magnet := req.magnet,
      timestamp := now, source := source, quality_profile := quality_profile,
      selected_node := selected_node, status := "pending" }
  (request_id,
   { requests := dictSet tr.requests request_id tracked,
     by_category := dictAppend tr.by_category req.category request_id })

/-- `RequestTracker.update_status(request_id, status, selected_node)`;
the node is only written when truthy (`if selected_node:`), i.e. present
and nonempty. -/
def update_status (tr : RequestTracker) (request_id : String) (status : String)
    (selected_node : Option String) : RequestTracker :=
  match dictLookup tr.requests request_id with
  | none => tr
  | some existing =>
    let updated := { existing with status := status }
    let updated :=
      match selected_node with
      | some s => if s = "" then updated else { updated with selected_node := some s }
      | none => updated
    { tr with requests := dictSet tr.requests request_id updated }

/-- `RequestTracker.get_requests_by_category(category)`. -/
def get_requests_by_category (tr : RequestTracker) (category : String) :
    List TrackedRequest :=
  let request_ids := (dictLookup tr.by_category category).getD []
  request_ids.filterMap fun rid => dictLookup tr.requests rid

/-! ### `Dispatcher` (`app/dispatcher.py`)

A probe of the fleet is a function from node name to `Option NodeState`
(`none` models the exception branch of `_gather_node_state`); a submission
backend is a function from node name to `Except error infohash`
(`submit_magnet` raising vs. returning). -/

/-- `Dispatcher._gather_node_state(node)`. -/
def gather_node_state (probe : String → Option NodeState) (node : NodeConfig) :
    Option NodeState × NodeMetrics :=
  match probe node.name with
  | none =>
    (none,
     { name := node.name, free_disk_gb := none, active_downloads := 0,
       paused_downloads := 0, global_download_rate_mbps := 0,
       reachable := false, excluded_reason := some "api_unreachable",
       score := none })
  | some state =>
    (some state,
     { name := node.name, free_disk_gb := state.free_disk_gb,
       active_downloads := state.active_downloads,
       paused_downloads := state.paused_downloads,
       global_download_rate_mbps := state.global_download_rate_mbps,
       reachable := true, excluded_reason := none, score := none })

/-- `Dispatcher._score_node(node, state, metrics, size_estimate_gb)`.
Python truthiness is kept: the size deduction fires on
`size_estimate_gb ≠ 0`, and `node.weight or 1.0` maps a zero weight
to `1`. -/
def score_node (settings : DispatcherSettings) (node : NodeConfig)
    (state : NodeState) (metrics : NodeMetrics) (size_estimate_gb : ℚ) :
    ScoredNode :=
  let free_disk_gb : Option ℚ :=
    if size_estimate_gb ≠ 0 ∧ state.free_disk_gb.isSome then
      some (max 0 (state.free_disk_gb.getD 0 - size_estimate_gb))
    else state.free_disk_gb
  let step1 : Bool × Option String :=
    match free_disk_gb with
    | none => (true, some "missing_free_space")
    | some f =>
      if f < node.min_free_gb then (true, some "below_min_free_space")
      else (false, none)
  let step2 : Bool × Option String :=
    if state.active_downloads > settings.max_downloads then
      (true, some (step1.2.getD "too_many_downloads"))
    else step1
  let base_score : ℚ :=
    free_disk_gb.getD 0 * settings.disk_weight
      - (state.active_downloads : ℚ) * settings.download_weight
      - state.global_download_rate_mbps * settings.bandwidth_weight
  let scoreVal : ℚ := base_score * (if node.weight = 0 then 1 else node.weight)
  let score : Option ℚ := if step2.1 then none else some scoreVal
  let step3 : Bool × Option String :=
    if step2.1 = false ∧ scoreVal < settings.min_score then
      (true, some (step2.2.getD "score_below_minimum"))
    else step2
  { config := node, state := some state,
    metrics := { metrics with score := score, excluded_reason := step3.2 },
    score := score, excluded := step3.1 }

/-- `Dispatcher.evaluate_nodes(size_estimate_gb)`: one snapshot per
configured node, in declaration order (`asyncio.gather` keeps order). -/
def evaluate_nodes (config : AppConfig) (probe : String → Option NodeState)
    (size_estimate_gb : ℚ) : List ScoredNode :=
  config.nodes.map fun node =>
    match gather_node_state probe node with
    | (none, metrics) =>
      { config := node, state := none, metrics := metrics, score := none,
        excluded := true }
    | (some state, metrics) =>
      score_node config.dispatcher node state metrics size_estimate_gb

/-- The sort key `n.score or 0.0` of the eligibility sort. -/
def scoreKey (n : ScoredNode) : ℚ := n.score.getD 0

/-- The comparison of the descending sort: `a` may precede `b` when
`a`'s key is at least `b`'s. -/
def scoreGE (a b : ScoredNode) : Prop := scoreKey b ≤ scoreKey a

instance : DecidableRel scoreGE :=
  fun a b => inferInstanceAs (Decidable (scoreKey b ≤ scoreKey a))

instance : IsTotal ScoredNode scoreGE :=
  ⟨fun a b => le_total (scoreKey b) (scoreKey a)⟩

instance : IsTrans ScoredNode scoreGE :=
  ⟨fun _ _ _ h1 h2 => le_trans h2 h1⟩

/-- Eligibility filter and stable descending sort shared by
`debug_decision` and `submit`:
`[n for n in scored if not n.excluded and n.score is not None]` followed by
`eligible.sort(key=lambda n: n.score or 0.0, reverse=True)`.  Python's
`list.sort` is stable; `insertionSort` with the non-strict descending
comparison is the same stable descending sort. -/
def sortEligible (scored : List ScoredNode) : List ScoredNode :=
  (scored.filter fun n => !n.excluded && n.score.isSome).insertionSort scoreGE

/-- `Dispatcher.debug_decision(req)`: evaluates with NO size estimate
(the source calls `evaluate_nodes()` with its default of `0.0`); `req` is
otherwise unused. -/
def debug_decision (config : AppConfig) (probe : String → Option NodeState)
    (req : SubmitRequest) : DecisionDebug :=
  let scored_nodes := evaluate_nodes config probe 0
  let eligible := sortEligible scored_nodes
  { selected_node := eligible.head?.map fun n => n.config.name,
    reason := if eligible.isEmpty then "no_eligible_nodes" else "highest_score",
    nodes := scored_nodes.map fun s =>
      { metrics := s.metrics, excluded := s.excluded } }

/-- The dispatcher's mutable state: the captured config, the decision
history deque (`maxlen=200`, oldest first) and the optional tracker
(`RequestTracker() if config.request_tracking.enabled else None`). -/
structure DispatcherState where
  config : AppConfig
  history : List DecisionRecord
  tracker : Option RequestTracker
deriving DecidableEq, Repr

/-- `Dispatcher.__init__(config)`. -/
def initDispatcher (config : AppConfig) : DispatcherState :=
  { config := config, history := [],
    tracker :=
      if config.request_tracking.enabled then
        some { requests := [], by_category := [] }
      else none }

/-- `deque(maxlen=200).append`: drop the oldest entry on overflow. -/
def appendBounded (history : List DecisionRecord) (record : DecisionRecord) :
    List DecisionRecord :=
  let h := history ++ [record]
  if h.length ≤ 200 then h else h.drop (h.length - 200)

/-- `Dispatcher._record_decision(req, decision)` at instant `now`. -/
def record_decision (now : ℚ) (d : DispatcherState) (req : SubmitRequest)
    (decision : SubmitDecision) : DispatcherState :=
  { d with
    history := appendBounded d.history
      { timestamp := now, request_name := req.name,
        request_category := req.category,
        size_estimate_gb := req.size_estimate_gb,
        selected_node := decision.selected_node, reason := decision.reason,
        status := decision.status,
        attempted_nodes := decision.attempted_nodes } }

/-- `Dispatcher.get_decisions(limit)`: non-positive limits yield `[]`,
otherwise the newest `limit` records, oldest first (`items[-limit:]`). -/
def get_decisions (history : List DecisionRecord) (limit : Int) :
    List DecisionRecord :=
  if limit ≤ 0 then []
  else if (history.length : Int) ≤ limit then history
  else history.drop (history.length - limit.toNat)

/-- The retry loop of `Dispatcher.submit`: try each candidate in order,
returning the name of the first node whose `submit_magnet` succeeds, or
the last error once every candidate failed. -/
def attempt_candidates (submitMagnet : String → Except String String) :
    List ScoredNode → Option String → Except (Option String) String
  | [], last_error => .error last_error
  | node :: rest, last_error =>
    match submitMagnet node.config.name with
    | .ok _ => .ok node.config.name
    | .error e => attempt_candidates submitMagnet rest (some e)

/-- Python string interpolation of an `Optional[str]`. -/
def pyStr : Option String → String
  | some s => s
  | none => "None"

/-- `Dispatcher.submit(req)`.  Notification ports are no-ops on the decision
state; the quality-profile branch only emits notifications and is omitted.
Returns the decision together with the successor dispatcher state. -/
def submit (sha1hex : String → String) (now : ℚ)
    (probe : String → Option NodeState)
    (submitMagnet : String → Except String String)
    (d : DispatcherState) (req : SubmitRequest) :
    SubmitDecision × DispatcherState :=
  let dup : Option TrackedRequest :=
    match d.tracker with
    | some tr =>
      if d.config.request_tracking.check_duplicates then
        match is_duplicate sha1hex now tr req with
        | (true, some existing) => some existing
        | _ => none
      else none
    | none => none
  match dup with
  | some existing =>
    let decision : SubmitDecision :=
      { selected_node := existing.selected_node,
        reason := "duplicate_of_existing_request: " ++ existing.name,
        status := "rejected", attempted_nodes := [] }
    (decision, record_decision now d req decision)
  | none =>
    let scored_nodes := evaluate_nodes d.config probe req.size_estimate_gb
    let eligible := sortEligible scored_nodes
    let attempted_metrics := scored_nodes.map fun n => n.metrics
    if eligible.isEmpty then
      let decision : SubmitDecision :=
        { selected_node := none, reason := "no_eligible_nodes",
          status := "rejected", attempted_nodes := attempted_metrics }
      (decision, record_decision now d req decision)
    else
      let max_retries : Int := max 1 d.config.dispatcher.submission.max_retries
      match attempt_candidates submitMagnet (eligible.take max_retries.toNat) none with
      | .ok nodeName =>
        let decision : SubmitDecision :=
          { selected_node := some nodeName, reason := "highest_score",
            status := "accepted", attempted_nodes := attempted_metrics }
        let d1 := record_decision now d req decision
        let d2 :=
          match d1.tracker with
          | some tr =>
            let tr1 := (add_request sha1hex now tr req (some req.category)
              none (some nodeName)).2
            { d1 with
              tracker := some (update_status tr1
                (generate_request_id sha1hex req.magnet) "downloading"
                (some nodeName)) }
          | none => d1
        (decision, d2)
      | .error last_error =>
        let decision : SubmitDecision :=
          { selected_node := none,
            reason := "submission_failed_all_nodes: " ++ pyStr last_error,
            status := "failed", attempted_nodes := attempted_metrics }
        (decision, record_decision now d req decision)

/-! ### Config plane (`app/main.py`)

`yaml.safe_load` + `parse_config` enter as the `parse` argument, the
`write_text` to `DEFAULT_CONFIG_PATH` as the boolean `writeOk` (an atomic
write that either lands or leaves the file as it was).  The state holds the
persisted file text, the in-memory config reference and the live
dispatcher. -/

structure AppState where
  file : String
  config : AppConfig
  dispatcher : DispatcherState

/-- `POST /config/raw` (`update_config_raw`): parse errors give 400 before
anything is touched; a failing write gives 500 and keeps the old config and
dispatcher; on success the file is persisted, the config swapped and a
fresh `Dispatcher` constructed. -/
def update_config_raw (parse : String → Except String AppConfig)
    (writeOk : Bool) (st : AppState) (payload : String) : Nat × AppState :=
  match parse payload with
  | .error _ => (400, st)
  | .ok new_config =>
    if writeOk then
      (200, { file := payload, config := new_config,
              dispatcher := initDispatcher new_config })
    else (500, st)

/-- `POST /config/json` (`update_config_json`): same shape, with the payload
re-serialized by `yaml.safe_dump` (the `dump` argument) before persisting. -/
def update_config_json {J : Type} (parse : J → Except String AppConfig)
    (dump : J → String) (writeOk : Bool) (st : AppState) (payload : J) :
    Nat × AppState :=
  match parse payload with
  | .error _ => (400, st)
  | .ok new_config =>
    if writeOk then
      (200, { file := dump payload, config := new_config,
              dispatcher := initDispatcher new_config })
    else (500, st)

/-! ### Claim-side auxiliary definitions -/

/-- The `effectiveFree` of the spec (step 1 of the Scorer): subtract the
size estimate, clamped at 0, when the size is positive and free disk is
known. -/
def effectiveFree (state : NodeState) (size_estimate_gb : ℚ) : Option ℚ :=
  if 0 < size_estimate_gb ∧ state.free_disk_gb.isSome then
    some (max 0 (state.free_disk_gb.getD 0 - size_estimate_gb))
  else state.free_disk_gb

/-- The `TrackedRequest` that `add_request` stores for `req` at instant
`now`. -/
def trackedOf (req : SubmitRequest) (now : ℚ) (source : Option String)
    (quality_profile : Option String) (selected_node : Option String) :
    TrackedRequest :=
  { name := req.name, category := req.category,
    size_estimate_gb := req.size_estimate_gb, magnet := req.magnet,
    timestamp := now, source := source, quality_profile := quality_profile,
    selected_node := selected_node, status := "pending" }

/-- Iterated `add_request` with fixed arguments, one call per instant. -/
def addNTimes (sha1hex : String → String) (req : SubmitRequest)
    (source : Option String) (quality_profile : Option String)
    (selected_node : Option String) (times : List ℚ) (tr : RequestTracker) :
    RequestTracker :=
  times.foldl
    (fun t now =>
      (add_request sha1hex now t req source quality_profile selected_node).2)
    tr

/-! ### Concrete fixtures for counterexamples and witnesses -/

def sha1W : String → String := fun _ => "fallbackdigest"

def emptyTracker : RequestTracker := { requests := [], by_category := [] }

def subW : SubmissionSettings := { max_retries := 2, save_path := none }

/-- The documented default scoring policy. -/
def setW : DispatcherSettings :=
  { disk_weight := 1, download_weight := 2, bandwidth_weight := 1/10,
    max_downloads := 50, min_score := -1, submission := subW }

/-- A policy where only disk matters, for weight arithmetic. -/
def setSimple : DispatcherSettings :=
  { disk_weight := 1, download_weight := 0, bandwidth_weight := 0,
    max_downloads := 50, min_score := -1, submission := subW }

def trkOn : RequestTrackingConfig :=
  { enabled := true, check_duplicates := true, check_quality_profiles := true,
    send_suggestions := true }

/-- Tracking enabled but duplicate checking switched off. -/
def trkNoDup : RequestTrackingConfig :=
  { enabled := true, check_duplicates := false,
    check_quality_profiles := true, send_suggestions := true }

def nodeA : NodeConfig :=
  { name := "node-a", url := "http://a:8080", username := "u", password := "p",
    min_free_gb := 0, weight := 1 }

def nodeB : NodeConfig :=
  { name := "node-b", url := "http://b:8080", username := "u", password := "p",
    min_free_gb := 0, weight := 1 }

/-- A node demanding 100 GiB of free space. -/
def nodeC : NodeConfig :=
  { name := "n1", url := "http://c:8080", username := "u", password := "p",
    min_free_gb := 100, weight := 1 }

/-- A node with configured weight 0. -/
def nodeW0 : NodeConfig :=
  { name := "n0", url := "http://z:8080", username := "u", password := "p",
    min_free_gb := 0, weight := 0 }

/-- A node with configured weight 2. -/
def nodeW2 : NodeConfig :=
  { name := "n2", url := "http://w:8080", username := "u", password := "p",
    min_free_gb := 0, weight := 2 }

def stA : NodeState :=
  { free_disk_gb := some 989, active_downloads := 0, paused_downloads := 0,
    global_download_rate_mbps := 0 }

def stB : NodeState :=
  { free_disk_gb := some 500, active_downloads := 0, paused_downloads := 0,
    global_download_rate_mbps := 0 }

/-- 150 GiB free: above `nodeC`'s threshold, but not after subtracting a
60 GiB request. -/
def stC : NodeState :=
  { free_disk_gb := some 150, active_downloads := 0, paused_downloads := 0,
    global_download_rate_mbps := 0 }

def metricsOf (name : String) (st : NodeState) : NodeMetrics :=
  { name := name, free_disk_gb := st.free_disk_gb,
    active_downloads := st.active_downloads,
    paused_downloads := st.paused_downloads,
    global_download_rate_mbps := st.global_download_rate_mbps,
    reachable := true, excluded_reason := none, score := none }

def cfg2 : AppConfig :=
  { dispatcher := setW, nodes := [nodeA, nodeB], request_tracking := trkOn }

def cfgC3 : AppConfig :=
  { dispatcher := setW, nodes := [nodeC], request_tracking := trkOn }

def cfgDup : AppConfig :=
  { dispatcher := setW, nodes := [nodeA], request_tracking := trkNoDup }

def probe2 : String → Option NodeState := fun n =>
  if n = "node-a" then some stA else if n = "node-b" then some stB else none

def probeC3 : String → Option NodeState := fun n =>
  if n = "n1" then some stC else none

/-- node-a is down, node-b is up. -/
def probe7 : String → Option NodeState := fun n =>
  if n = "node-b" then some stB else none

/-- Submission fails on node-a, succeeds elsewhere. -/
def sm2 : String → Except String String := fun n =>
  if n = "node-a" then .error "boom" else .ok "cafebabe"

def smOk : String → Except String String := fun _ => .ok "cafebabe"

def req2 : SubmitRequest :=
  { name := "Movie.2024", category := "movies", size_estimate_gb := 10,
    magnet := "magnet:?xt=urn:btih:abc1&dn=x" }

def reqC3 : SubmitRequest :=
  { name := "Big.Movie", category := "movies", size_estimate_gb := 60,
    magnet := "magnet:?xt=urn:btih:abc2&dn=y" }

def reqDup : SubmitRequest :=
  { name := "Dup.Movie", category := "movies", size_estimate_gb := 1,
    magnet := "magnet:?xt=urn:btih:abc3&dn=z" }

/-- A tracker that has already seen `reqDup` at instant 0. -/
def trDup : RequestTracker :=
  (add_request sha1W 0 emptyTracker reqDup (some "movies") none
    (some "node-a")).2

/-- A dispatcher with tracking on, duplicate checking off, and `reqDup`
already tracked. -/
def dDup : DispatcherState :=
  { config := cfgDup, history := [], tracker := some trDup }

/-- A decision record with the given timestamp. -/
def recW (i : ℚ) : DecisionRecord :=
  { timestamp := i, request_name := "r", request_category := "movies",
    size_estimate_gb := 0, selected_node := none, reason := "ok",
    status := "accepted", attempted_nodes := [] }

def stateW : AppState :=
  { file := "nodes: old", config := cfg2, dispatcher := initDispatcher cfg2 }

/-- The tracked request used in the C4 witness. -/
def exW : TrackedRequest := trackedOf reqDup 0 (some "movies") none none

def trW : RequestTracker :=
  { requests := [("abc3", exW)], by_category := [("movies", ["abc3"])] }

/-- The snapshot of an unreachable `nodeA` in a round under `probe7`. -/
def s0W : ScoredNode :=
  { config := nodeA, state := none,
    metrics :=
      { name := "node-a", free_disk_gb := none, active_downloads := 0,
        paused_downloads := 0, global_download_rate_mbps := 0,
        reachable := false, excluded_reason := some "api_unreachable",
        score := none },
    score := none, excluded := true }

/-- The snapshot of `nodeB` (500 GiB free, idle) under the default policy
with no size estimate: score 500. -/
def sBW : ScoredNode :=
  { config := nodeB, state := some stB,
    metrics :=
      { name := "node-b", free_disk_gb := some 500, active_downloads := 0,
        paused_downloads := 0, global_download_rate_mbps := 0,
        reachable := true, excluded_reason := none, score := some 500 },
    score := some 500, excluded := false }

/-- `nodeA` scored for a 10 GiB request: effective free 979. -/
def sAW10 : ScoredNode :=
  { config := nodeA, state := some stA,
    metrics :=
      { name := "node-a", free_disk_gb := some 989, active_downloads := 0,
        paused_downloads := 0, global_download_rate_mbps := 0,
        reachable := true, excluded_reason := none, score := some 979 },
    score := some 979, excluded := false }

/-- `nodeB` scored for a 10 GiB request: effective free 490. -/
def sBW10 : ScoredNode :=
  { config := nodeB, state := some stB,
    metrics :=
      { name := "node-b", free_disk_gb := some 500, active_downloads := 0,
        paused_downloads := 0, global_download_rate_mbps := 0,
        reachable := true, excluded_reason := none, score := some 490 },
    score := some 490, excluded := false }

/-! ### Helper lemmas about the splitting primitives -/

theorem afterFirst_length {sep rest : List Char} (hsep : sep ≠ []) :
    ∀ {s : List Char}, afterFirst sep s = some rest → rest.length < s.length := by
  intro s
  induction s with
  | nil => intro h; simp [afterFirst] at h
  | cons c cs ih =>
    intro h
    by_cases hp : sep.isPrefixOf (c :: cs)
    · simp only [afterFirst, hp, if_pos] at h
      cases h
      have h1 : 1 ≤ sep.length := by
        cases sep with
        | nil => exact absurd rfl hsep
        | cons a as => simp
      simp only [List.length_drop, List.length_cons]
      omega
    · simp only [afterFirst, hp, if_neg, not_false_iff] at h
      have := ih h
      simp only [List.length_cons]
      omega

theorem pySplitF_fuel {sep : List Char} :
    ∀ {f₁ f₂ : Nat} {s : List Char}, s.length < f₁ → s.length < f₂ →
      pySplitF f₁ sep s = pySplitF f₂ sep s := by
  intro f₁
  induction f₁ with
  | zero => intro f₂ s h1 _; omega
  | succ f ih =>
    intro f₂ s h1 h2
    cases f₂ with
    | zero => omega
    | succ f' =>
      simp only [pySplitF]
      by_cases he : sep.isEmpty
      · simp [he]
      · simp only [he, if_neg, Bool.false_eq_true, not_false_iff]
        cases hA : afterFirst sep s with
        | none => rfl
        | some rest =>
          have hsep : sep ≠ [] := by
            intro hc; rw [hc] at he; simp [List.isEmpty] at he
          have hr := afterFirst_length hsep hA
          simp only []
          congr 1
          exact ih (by omega) (by omega)

theorem pySplit_of_none {sep s : List Char} (h : afterFirst sep s = none) :
    pySplit sep s = [s] := by
  unfold pySplit pySplitF
  by_cases he : sep.isEmpty
  · simp [he]
  · simp [he, h]

theorem pySplit_of_some {sep s rest : List Char} (hsep : sep ≠ [])
    (h : afterFirst sep s = some rest) :
    pySplit sep s = beforeFirst sep s :: pySplit sep rest := by
  have he : sep.isEmpty = false := by
    cases sep with
    | nil => exact absurd rfl hsep
    | cons a as => rfl
  unfold pySplit
  conv =>
    lhs
    rw [pySplitF]
  rw [he]
  simp only [Bool.false_eq_true, if_neg, not_false_iff, h]
  have hr := afterFirst_length hsep h
  congr 1
  exact pySplitF_fuel (by omega) (by omega)

theorem pySplit_ne_nil (sep s : List Char) : pySplit sep s ≠ [] := by
  unfold pySplit pySplitF
  by_cases he : sep.isEmpty
  · simp [he]
  · simp only [he, Bool.false_eq_true, if_neg, not_false_iff]
    cases afterFirst sep s <;> simp

theorem beforeFirst_of_none {sep : List Char} :
    ∀ {s : List Char}, afterFirst sep s = none → beforeFirst sep s = s := by
  intro s
  induction s with
  | nil => intro _; rfl
  | cons c cs ih =>
    intro h
    by_cases hp : sep.isPrefixOf (c :: cs)
    · simp [afterFirst, hp] at h
    · simp only [afterFirst, hp, if_neg, not_false_iff] at h
      simp [beforeFirst, hp, ih h]

theorem headD_pySplit {sep : List Char} (hsep : sep ≠ []) (s : List Char) :
    (pySplit sep s).headD [] = beforeFirst sep s := by
  cases h : afterFirst sep s with
  | none => rw [pySplit_of_none h, beforeFirst_of_none h]; rfl
  | some rest => rw [pySplit_of_some hsep h]; rfl

/-! ### Claim C5: the dedup key derivation -/

/-- **C5 (amended)**: for every magnet string the tracker's dedup key is:
if the magnet contains `btih:`, the first 40 characters of the segment
after the first `btih:`, cut at the following `btih:` occurrence (if any)
and at the first `&`; otherwise the SHA-1 hex digest of the full magnet
string.  (The original claim did not cut at a second `btih:`; see the
counterexample.) -/
theorem generate_request_id_eq_amendedKey (sha1hex : String → String)
    (magnet : String) :
    generate_request_id sha1hex magnet = amendedKeyC5 sha1hex magnet := by
  unfold generate_request_id amendedKeyC5 strContains
  have hsepB : "btih:".data ≠ [] := by decide
  have hsepA : "&".data ≠ [] := by decide
  cases h : afterFirst "btih:".data magnet.data with
  | none => simp [h]
  | some rest =>
    simp only [h, Option.isSome_some, if_pos]
    rw [pySplit_of_some hsepB h]
    have hlen : (beforeFirst "btih:".data magnet.data ::
        pySplit "btih:".data rest).length > 1 := by
      have := pySplit_ne_nil "btih:".data rest
      cases hP : pySplit "btih:".data rest with
      | nil => exact absurd hP this
      | cons a as => simp
    simp only [hlen, if_pos]
    have hget : (beforeFirst "btih:".data magnet.data ::
        pySplit "btih:".data rest).getD 1 [] = (pySplit "btih:".data rest).headD [] := by
      cases pySplit "btih:".data rest <;> rfl
    rw [hget, headD_pySplit hsepB rest, headD_pySplit hsepA]

/-- **C5 counterexample**: on a magnet whose infohash region contains a
second `btih:`, Python's `split("btih:")[1]` stops at that second
occurrence, so the computed key is `"aa"`, while the claim's words ("the
substring after the first `btih:` and before the next `&`") demand
`"aabtih:bb"`. -/
theorem generate_request_id_claim_counterexample :
    generate_request_id (fun _ => "unused") "btih:aabtih:bb&c" = "aa" ∧
    claimKeyC5 (fun _ => "unused") "btih:aabtih:bb&c" = "aabtih:bb" ∧
    ("aa" : String) ≠ "aabtih:bb" := by
  refine ⟨by decide, by decide, by decide⟩

/-! ### Claim C4: `is_duplicate` -/

/-- **C4**: `is_duplicate` returns `(true, existing)` iff a tracked
request is stored under the key derived from `req.magnet` and its
insertion timestamp is within the last 24 hours; in every other case it
returns `(false, none)`.  (The function reads the tracker and returns a
pair; it performs no state update, which the embedding makes explicit by
its type.) -/
theorem is_duplicate_spec (sha1hex : String → String) (now : ℚ)
    (tr : RequestTracker) (req : SubmitRequest) :
    (∀ ex, is_duplicate sha1hex now tr req = (true, some ex) ↔
      (dictLookup tr.requests (generate_request_id sha1hex req.magnet) = some ex ∧
        now - ex.timestamp < 86400)) ∧
    ((¬ ∃ ex,
        dictLookup tr.requests (generate_request_id sha1hex req.magnet) = some ex ∧
          now - ex.timestamp < 86400) →
      is_duplicate sha1hex now tr req = (false, none)) := by
  have hid : is_duplicate sha1hex now tr req =
      match dictLookup tr.requests (generate_request_id sha1hex req.magnet) with
      | some existing =>
        if now - existing.timestamp < 86400 then (true, some existing)
        else (false, none)
      | none => (false, none) := rfl
  cases h : dictLookup tr.requests (generate_request_id sha1hex req.magnet) with
  | none =>
    rw [h] at hid
    have hid2 : is_duplicate sha1hex now tr req = (false, none) := hid
    refine ⟨fun ex => ⟨fun hx => ?_, fun hx => ?_⟩, fun _ => hid2⟩
    · rw [hid2] at hx
      exact absurd hx (by simp)
    · exact absurd hx.1 (by simp)
  | some ex0 =>
    rw [h] at hid
    have hid2 : is_duplicate sha1hex now tr req =
        if now - ex0.timestamp < 86400 then (true, some ex0)
        else (false, none) := hid
    by_cases ht : now - ex0.timestamp < 86400
    · rw [if_pos ht] at hid2
      refine ⟨fun ex => ⟨fun hx => ?_, fun hx => ?_⟩, fun hn => ?_⟩
      · rw [hid2] at hx
        have hex : ex0 = ex := Option.some.inj (congrArg Prod.snd hx)
        exact ⟨hex ▸ rfl, hex ▸ ht⟩
      · have hex : ex0 = ex := Option.some.inj hx.1
        rw [hid2, hex]
      · exact absurd ⟨ex0, rfl, ht⟩ hn
    · rw [if_neg ht] at hid2
      refine ⟨fun ex => ⟨fun hx => ?_, fun hx => ?_⟩, fun _ => hid2⟩
      · rw [hid2] at hx
        exact absurd hx (by simp)
      · have hex : ex0 = ex := Option.some.inj hx.1
        exact absurd hx.2 (hex ▸ ht)

/-- C4 witness: with `exW` tracked under key `"abc3"` at instant 0, a
query at instant 10 for the same magnet is reported as a duplicate of
`exW`; the hypotheses of `is_duplicate_spec` are discharged by
computation. -/
theorem is_duplicate_spec_witness :
    is_duplicate sha1W 10 trW reqDup = (true, some exW) := by
  have h := is_duplicate_spec sha1W 10 trW reqDup
  exact (h.1 exW).mpr ⟨by decide, by norm_num [exW, trackedOf]⟩

/-! ### Claim C6: the bounded decision history -/

theorem appendBounded_length_le (h : List DecisionRecord) (r : DecisionRecord) :
    (appendBounded h r).length ≤ 200 := by
  have hb : appendBounded h r =
      if (h ++ [r]).length ≤ 200 then h ++ [r]
      else (h ++ [r]).drop ((h ++ [r]).length - 200) := rfl
  rw [hb]
  by_cases hl : (h ++ [r]).length ≤ 200
  · rw [if_pos hl]; exact hl
  · rw [if_neg hl, List.length_drop]; omega

theorem foldl_appendBounded_le :
    ∀ (recs : List DecisionRecord) (init : List DecisionRecord),
      init.length ≤ 200 → (recs.foldl appendBounded init).length ≤ 200 := by
  intro recs
  induction recs with
  | nil => intro init h; simpa using h
  | cons r rs ih => intro init _; exact ih _ (appendBounded_length_le init r)

/-- **C6**: after any sequence of recorded decisions the history holds at
most 200 records; when full, appending drops the oldest; for every
`limit > 0`, `get_decisions` returns the `min(limit, |history|)` newest
records as the suffix of the oldest-first history. -/
theorem history_ring_spec (recs : List DecisionRecord)
    (history : List DecisionRecord) (r : DecisionRecord) (limit : Int)
    (hpos : 0 < limit) :
    (recs.foldl appendBounded []).length ≤ 200 ∧
    (history.length = 200 → appendBounded history r = history.tail ++ [r]) ∧
    get_decisions history limit = history.drop (history.length - limit.toNat) ∧
    (get_decisions history limit).length = min limit.toNat history.length := by
  refine ⟨foldl_appendBounded_le recs [] (by simp), fun hfull => ?_, ?_, ?_⟩
  · unfold appendBounded
    have hlen : ¬ ((history ++ [r]).length ≤ 200) := by
      simp [hfull]
    simp only [hlen, if_neg, not_false_iff]
    have hdrop : (history ++ [r]).length - 200 = 1 := by
      simp [hfull]
    rw [hdrop, List.drop_append_of_le_length (by omega), List.drop_one]
  · unfold get_decisions
    have hno : ¬ (limit ≤ 0) := by omega
    rw [if_neg hno]
    by_cases hle : (history.length : Int) ≤ limit
    · rw [if_pos hle]
      have : history.length - limit.toNat = 0 := by omega
      rw [this, List.drop_zero]
    · rw [if_neg hle]
  · unfold get_decisions
    have hno : ¬ (limit ≤ 0) := by omega
    rw [if_neg hno]
    by_cases hle : (history.length : Int) ≤ limit
    · rw [if_pos hle]
      omega
    · rw [if_neg hle, List.length_drop]
      omega

/-- C6 witness: with three records and `limit = 2`, the two newest are
returned oldest-first. -/
theorem history_ring_spec_witness :
    get_decisions [recW 1, recW 2, recW 3] 2 = [recW 2, recW 3] := by
  have h := history_ring_spec [] [recW 1, recW 2, recW 3] (recW 4) 2 (by norm_num)
  rw [h.2.2.1]
  rfl

/-! ### Claim C10: repeated `add_request` with the same magnet and category -/

theorem foldl_const_getLastD (f : ℚ → TrackedRequest) :
    ∀ (ts : List ℚ) (t : ℚ) (v : TrackedRequest),
      List.foldl (fun _ now => f now) v (t :: ts) = f (List.getLastD ts t) := by
  intro ts
  induction ts with
  | nil => intro t v; rfl
  | cons t2 ts2 ih =>
    intro t v
    rw [List.getLastD_cons, List.foldl_cons]
    exact ih t2 (f t)

theorem filterMap_replicate_some {α β : Type} (f : α → Option β) (x : α)
    (y : β) (hf : f x = some y) :
    ∀ n, List.filterMap f (List.replicate n x) = List.replicate n y := by
  intro n
  induction n with
  | zero => rfl
  | succ m ih => simp [List.replicate_succ, List.filterMap_cons, hf, ih]

theorem addNTimes_from_single (sha1hex : String → String) (req : SubmitRequest)
    (source quality_profile selected_node : Option String) :
    ∀ (times : List ℚ) (v : TrackedRequest) (ids : List String),
      addNTimes sha1hex req source quality_profile selected_node times
        { requests := [(generate_request_id sha1hex req.magnet, v)],
          by_category := [(req.category, ids)] } =
      { requests := [(generate_request_id sha1hex req.magnet,
          times.foldl
            (fun _ now => trackedOf req now source quality_profile selected_node)
            v)],
        by_category := [(req.category,
          ids ++ times.map fun _ => generate_request_id sha1hex req.magnet)] } := by
  intro times
  induction times with
  | nil => intro v ids; simp [addNTimes]
  | cons t ts ih =>
    intro v ids
    have hstep :
        (add_request sha1hex t
          { requests := [(generate_request_id sha1hex req.magnet, v)],
            by_category := [(req.category, ids)] }
          req source quality_profile selected_node).2 =
        { requests := [(generate_request_id sha1hex req.magnet,
            trackedOf req t source quality_profile selected_node)],
          by_category := [(req.category, ids ++
            [generate_request_id sha1hex req.magnet])] } := by
      simp [add_request, dictSet, dictAppend, trackedOf]
    unfold addNTimes
    rw [List.foldl_cons]
    have := ih (trackedOf req t source quality_profile selected_node)
      (ids ++ [generate_request_id sha1hex req.magnet])
    unfold addNTimes at this
    rw [hstep, this, List.foldl_cons]
    simp

/-- **C10**: calling `add_request` `n ≥ 1` times with the same magnet and
category (at instants `t :: ts`) leaves exactly one stored
`TrackedRequest` — the one of the latest call — under the magnet's key,
while the category index receives the key once per call, so
`get_requests_by_category` returns that same request `n` times. -/
theorem add_request_repeat_spec (sha1hex : String → String)
    (req : SubmitRequest) (source quality_profile selected_node : Option String)
    (t : ℚ) (ts : List ℚ) :
    (addNTimes sha1hex req source quality_profile selected_node (t :: ts)
        emptyTracker).requests =
      [(generate_request_id sha1hex req.magnet,
        trackedOf req (List.getLastD ts t) source quality_profile selected_node)] ∧
    dictLookup (addNTimes sha1hex req source quality_profile selected_node
        (t :: ts) emptyTracker).by_category req.category =
      some (List.replicate (ts.length + 1)
        (generate_request_id sha1hex req.magnet)) ∧
    get_requests_by_category
        (addNTimes sha1hex req source quality_profile selected_node (t :: ts)
          emptyTracker) req.category =
      List.replicate (ts.length + 1)
        (trackedOf req (List.getLastD ts t) source quality_profile
          selected_node) := by
  have hstep0 :
      (add_request sha1hex t emptyTracker req source quality_profile
        selected_node).2 =
      { requests := [(generate_request_id sha1hex req.magnet,
          trackedOf req t source quality_profile selected_node)],
        by_category := [(req.category,
          [generate_request_id sha1hex req.magnet])] } := by
    simp [add_request, emptyTracker, dictSet, dictAppend, trackedOf]
  have hfold :
      addNTimes sha1hex req source quality_profile selected_node (t :: ts)
        emptyTracker =
      addNTimes sha1hex req source quality_profile selected_node ts
        { requests := [(generate_request_id sha1hex req.magnet,
            trackedOf req t source quality_profile selected_node)],
          by_category := [(req.category,
            [generate_request_id sha1hex req.magnet])] } := by
    unfold addNTimes
    rw [List.foldl_cons, hstep0]
  rw [hfold, addNTimes_from_single]
  have hlast :
      List.foldl
        (fun _ now => trackedOf req now source quality_profile selected_node)
        (trackedOf req t source quality_profile selected_node) ts =
      trackedOf req (List.getLastD ts t) source quality_profile selected_node := by
    have := foldl_const_getLastD
      (fun now => trackedOf req now source quality_profile selected_node) ts t
      (trackedOf req t source quality_profile selected_node)
    rw [← this, List.foldl_cons]
  have hids :
      [generate_request_id sha1hex req.magnet] ++
        (ts.map fun _ => generate_request_id sha1hex req.magnet) =
      List.replicate (ts.length + 1) (generate_request_id sha1hex req.magnet) := by
    rw [List.map_const']
    rfl
  refine ⟨by rw [hlast], ?_, ?_⟩
  · simp only [dictLookup, if_pos]
    rw [hids]
  · unfold get_requests_by_category
    simp only [dictLookup, if_pos, Option.getD_some]
    rw [hids, hlast]
    exact filterMap_replicate_some _ _ _ (by simp [dictLookup]) _

/-! ### Claim C8: atomic config hot-reload -/

/-- **C8**: for both hot-reload endpoints, a candidate that fails
parse-and-validate yields 400 with the whole state (file, config,
dispatcher) untouched; a candidate that parses but whose file write fails
yields 500 with the state untouched; only on full success is the file
written, the config swapped and a fresh dispatcher installed. -/
theorem config_reload_atomic {J : Type}
    (parse : String → Except String AppConfig)
    (parseJ : J → Except String AppConfig) (dump : J → String)
    (writeOk : Bool) (st : AppState) (payload : String) (payloadJ : J) :
    (∀ e, parse payload = .error e →
      update_config_raw parse writeOk st payload = (400, st)) ∧
    (∀ cfg, parse payload = .ok cfg → writeOk = false →
      update_config_raw parse writeOk st payload = (500, st)) ∧
    (∀ cfg, parse payload = .ok cfg → writeOk = true →
      update_config_raw parse writeOk st payload =
        (200, { file := payload, config := cfg,
                dispatcher := initDispatcher cfg })) ∧
    (∀ e, parseJ payloadJ = .error e →
      update_config_json parseJ dump writeOk st payloadJ = (400, st)) ∧
    (∀ cfg, parseJ payloadJ = .ok cfg → writeOk = false →
      update_config_json parseJ dump writeOk st payloadJ = (500, st)) ∧
    (∀ cfg, parseJ payloadJ = .ok cfg → writeOk = true →
      update_config_json parseJ dump writeOk st payloadJ =
        (200, { file := dump payloadJ, config := cfg,
                dispatcher := initDispatcher cfg })) := by
  refine ⟨fun e he => ?_, fun cfg hc hw => ?_, fun cfg hc hw => ?_,
    fun e he => ?_, fun cfg hc hw => ?_, fun cfg hc hw => ?_⟩
  · unfold update_config_raw
    rw [he]
  · unfold update_config_raw
    rw [hc, hw]
    rfl
  · unfold update_config_raw
    rw [hc, hw]
    rfl
  · unfold update_config_json
    rw [he]
  · unfold update_config_json
    rw [hc, hw]
    rfl
  · unfold update_config_json
    rw [hc, hw]
    rfl

/-- C8 witness: a rejected parse returns 400 and keeps `stateW`; a
successful parse with a working write installs the new file and a fresh
dispatcher for `cfgC3`. -/
theorem config_reload_atomic_witness :
    update_config_raw (fun _ => .error "Invalid config") true stateW "x" =
      (400, stateW) ∧
    update_config_raw (fun _ => .ok cfgC3) false stateW "y" = (500, stateW) ∧
    update_config_raw (fun _ => .ok cfgC3) true stateW "y" =
      (200, { file := "y", config := cfgC3,
              dispatcher := initDispatcher cfgC3 }) := by
  have h := config_reload_atomic (J := Unit) (fun _ => .error "Invalid config")
    (fun _ => .ok cfgC3) (fun _ => "") true stateW "x" ()
  have h2 := config_reload_atomic (J := Unit) (fun _ => .ok cfgC3)
    (fun _ => .ok cfgC3) (fun _ => "") false stateW "y" ()
  have h3 := config_reload_atomic (J := Unit) (fun _ => .ok cfgC3)
    (fun _ => .ok cfgC3) (fun _ => "") true stateW "y" ()
  exact ⟨h.1 "Invalid config" rfl, h2.2.1 cfgC3 rfl rfl, h3.2.2.1 cfgC3 rfl rfl⟩

/-! ### Claim C9: a successful reload resets history and tracker -/

theorem get_decisions_nil (limit : Int) :
    get_decisions [] limit = [] := by
  unfold get_decisions
  by_cases h : limit ≤ 0
  · rw [if_pos h]
  · rw [if_neg h, if_pos (by simp only [List.length_nil, Int.ofNat_zero]; omega)]

/-- **C9**: any successful hot-reload installs a freshly constructed
dispatcher: its history is empty (so `get_decisions` returns nothing,
whatever the limit), and its tracker — when tracking is enabled — holds no
entries, so no request is reported as a duplicate any more. -/
theorem reload_resets_dispatcher (parse : String → Except String AppConfig)
    (writeOk : Bool) (st : AppState) (payload : String) (st' : AppState)
    (h : update_config_raw parse writeOk st payload = (200, st')) :
    st'.dispatcher.history = [] ∧
    (∀ limit, get_decisions st'.dispatcher.history limit = []) ∧
    (∀ tr, st'.dispatcher.tracker = some tr →
      tr.requests = [] ∧
      ∀ sha1hex now req, is_duplicate sha1hex now tr req = (false, none)) := by
  unfold update_config_raw at h
  cases hp : parse payload with
  | error e =>
    rw [hp] at h
    exact absurd (congrArg Prod.fst h) (by norm_num)
  | ok cfg =>
    rw [hp] at h
    cases writeOk with
    | false =>
      have h2 : ((500 : Nat), st) = (200, st') := h
      exact absurd (congrArg Prod.fst h2) (by norm_num)
    | true =>
      have h1 : ((200 : Nat),
          ({ file := payload, config := cfg,
             dispatcher := initDispatcher cfg } : AppState)) = (200, st') := h
      injection h1 with ha hb
      subst hb
      refine ⟨rfl, fun limit => get_decisions_nil limit, fun tr htr => ?_⟩
      by_cases he : cfg.request_tracking.enabled
      · have htr2 : some ({ requests := [], by_category := [] } :
            RequestTracker) = some tr := by
          rw [← htr]
          show _ = (initDispatcher cfg).tracker
          unfold initDispatcher
          rw [if_pos he]
        have htr3 := Option.some.inj htr2
        refine ⟨htr3 ▸ rfl, fun sha1hex now req => ?_⟩
        rw [← htr3]
        rfl
      · exfalso
        have : (initDispatcher cfg).tracker = none := by
          unfold initDispatcher
          rw [if_neg he]
        rw [this] at htr
        exact Option.noConfusion htr

/-- C9 witness: a concrete successful reload to `cfgC3` (tracking enabled)
yields an empty history, an empty `get_decisions` answer and a tracker
that no longer flags `reqDup` — which the pre-reload tracker `trDup` did
flag — as a duplicate. -/
theorem reload_resets_dispatcher_witness :
    (initDispatcher cfgC3).history = [] ∧
    get_decisions (initDispatcher cfgC3).history 50 = [] ∧
    (∀ tr, (initDispatcher cfgC3).tracker = some tr →
      is_duplicate sha1W 10 tr reqDup = (false, none)) := by
  have h := reload_resets_dispatcher (fun _ => .ok cfgC3) true stateW "y"
    { file := "y", config := cfgC3, dispatcher := initDispatcher cfgC3 } rfl
  exact ⟨h.1, h.2.1 50, fun tr htr => (h.2.2 tr htr).2 sha1W 10 reqDup⟩

/-! ### Claim C2: the Scorer -/

/-- For a validated request (`size_estimate_gb ≥ 0` is enforced by the
`SubmitRequest` model), the code's truthiness test `size_estimate_gb ≠ 0`
coincides with the claim's `sizeEstimate > 0`. -/
theorem score_node_free_eq_effectiveFree (state : NodeState) (size : ℚ)
    (hsz : 0 ≤ size) :
    (if size ≠ 0 ∧ state.free_disk_gb.isSome then
        some (max 0 (state.free_disk_gb.getD 0 - size))
      else state.free_disk_gb) = effectiveFree state size := by
  unfold effectiveFree
  by_cases h0 : size = 0
  · subst h0
    simp
  · have hpos : 0 < size := lt_of_le_of_ne hsz (Ne.symm h0)
    simp [h0, hpos]

/-- **C2 (amended)**: for every (policy, descriptor, reachable telemetry,
validated size estimate): `effectiveFree` is `max(0, free − size)` when the
size is positive and free disk known, else `free`; unknown free disk
excludes with `missing_free_space`; `effectiveFree < minFree` excludes with
`below_min_free_space`; too many active downloads excludes, with disk
reasons winning; otherwise the score is
`(effectiveFree·w_disk − active·w_dl − bandwidth·w_bw)` times the node
weight **with a zero weight falling back to 1** (the amendment: Python's
`node.weight or 1.0`), the score is retained in the snapshot, and
`score < minScore` excludes with `score_below_minimum` while a score at or
above the minimum leaves the node eligible with no reason set. -/
theorem scorer_spec (settings : DispatcherSettings) (node : NodeConfig)
    (state : NodeState) (metrics : NodeMetrics) (size : ℚ)
    (hsz : 0 ≤ size) :
    (state.free_disk_gb = none →
      (score_node settings node state metrics size).excluded = true ∧
      (score_node settings node state metrics size).metrics.excluded_reason =
        some "missing_free_space" ∧
      (score_node settings node state metrics size).score = none) ∧
    (∀ f, effectiveFree state size = some f → f < node.min_free_gb →
      (score_node settings node state metrics size).excluded = true ∧
      (score_node settings node state metrics size).metrics.excluded_reason =
        some "below_min_free_space") ∧
    (state.active_downloads > settings.max_downloads →
      (score_node settings node state metrics size).excluded = true) ∧
    (∀ f, effectiveFree state size = some f → ¬ f < node.min_free_gb →
      state.active_downloads > settings.max_downloads →
      (score_node settings node state metrics size).metrics.excluded_reason =
        some "too_many_downloads") ∧
    (∀ f, effectiveFree state size = some f → ¬ f < node.min_free_gb →
      ¬ state.active_downloads > settings.max_downloads →
      (score_node settings node state metrics size).score =
        some ((f * settings.disk_weight
            - (state.active_downloads : ℚ) * settings.download_weight
            - state.global_download_rate_mbps * settings.bandwidth_weight)
          * (if node.weight = 0 then 1 else node.weight)) ∧
      (((f * settings.disk_weight
            - (state.active_downloads : ℚ) * settings.download_weight
            - state.global_download_rate_mbps * settings.bandwidth_weight)
          * (if node.weight = 0 then 1 else node.weight)) < settings.min_score →
        (score_node settings node state metrics size).excluded = true ∧
        (score_node settings node state metrics size).metrics.excluded_reason =
          some "score_below_minimum") ∧
      (¬ (((f * settings.disk_weight
            - (state.active_downloads : ℚ) * settings.download_weight
            - state.global_download_rate_mbps * settings.bandwidth_weight)
          * (if node.weight = 0 then 1 else node.weight)) < settings.min_score) →
        (score_node settings node state metrics size).excluded = false ∧
        (score_node settings node state metrics size).metrics.excluded_reason =
          none)) := by
  have heff := score_node_free_eq_effectiveFree state size hsz
  refine ⟨fun hfd => ?_, fun f hf hlow => ?_, fun hact => ?_,
    fun f hf hlow hact => ?_, fun f hf hlow hact => ?_⟩
  · have heff2 : (if size ≠ 0 ∧ state.free_disk_gb.isSome then
        some (max 0 (state.free_disk_gb.getD 0 - size))
      else state.free_disk_gb) = none := by
      rw [heff]
      unfold effectiveFree
      simp [hfd]
    unfold score_node
    rw [heff2]
    refine ⟨?_, ?_, ?_⟩ <;> · split_ifs <;> simp_all <;> try linarith
  · rw [hf] at heff
    unfold score_node
    rw [heff]
    dsimp only
    rw [if_pos hlow]
    refine ⟨?_, ?_⟩ <;> · split_ifs <;> simp_all <;> try linarith
  · cases hfd : state.free_disk_gb with
    | none =>
      have heff2 : (if size ≠ 0 ∧ state.free_disk_gb.isSome then
          some (max 0 (state.free_disk_gb.getD 0 - size))
        else state.free_disk_gb) = none := by
        rw [heff]
        unfold effectiveFree
        simp [hfd]
      unfold score_node
      rw [heff2]
      split_ifs <;> simp_all <;> try linarith
    | some f0 =>
      have hfsome : (effectiveFree state size).isSome := by
        unfold effectiveFree
        split_ifs <;> simp [hfd]
      cases hf : effectiveFree state size with
      | none => rw [hf] at hfsome; simp at hfsome
      | some f =>
        rw [hf] at heff
        unfold score_node
        rw [heff]
        split_ifs <;> simp_all <;> try linarith
  · rw [hf] at heff
    unfold score_node
    rw [heff]
    dsimp only
    rw [if_neg hlow]
    split_ifs <;> simp_all <;> try linarith
  · rw [hf] at heff
    unfold score_node
    rw [heff]
    dsimp only
    rw [if_neg hlow]
    refine ⟨?_, fun hmin => ?_, fun hmin => ?_⟩
    · split_ifs <;> simp_all <;> try linarith
    · refine ⟨?_, ?_⟩ <;> · split_ifs <;> simp_all <;> try linarith
    · refine ⟨?_, ?_⟩ <;> · split_ifs <;> simp_all <;> try linarith

/-- **C2 counterexample**: with a configured node weight of 0 the claim's
formula demands `score = base·0 = 0`, but Python's `node.weight or 1.0`
substitutes 1, and the code computes 500 for a node with 500 GiB free
under a disk-only policy. -/
theorem scorer_weight_counterexample :
    (score_node setSimple nodeW0 stB (metricsOf "n0" stB) 0).score =
      some 500 ∧
    nodeW0.weight = 0 ∧
    (500 : ℚ) ≠ (500 * setSimple.disk_weight
        - 0 * setSimple.download_weight
        - 0 * setSimple.bandwidth_weight) * nodeW0.weight := by
  refine ⟨?_, rfl, ?_⟩
  · norm_num [score_node, setSimple, nodeW0, stB, metricsOf, subW]
  · norm_num [setSimple, nodeW0, subW]

/-- C2 witness: spec scenario "weight multiplier": disk-only policy,
500 GiB free, weight 2 ⇒ score 1000, node eligible. -/
theorem scorer_spec_witness :
    (score_node setSimple nodeW2 stB (metricsOf "n2" stB) 0).score =
      some 1000 ∧
    (score_node setSimple nodeW2 stB (metricsOf "n2" stB) 0).excluded =
      false := by
  have h := scorer_spec setSimple nodeW2 stB (metricsOf "n2" stB) 0 le_rfl
  have hf : effectiveFree stB 0 = some 500 := by
    norm_num [effectiveFree, stB]
  have h5 := h.2.2.2.2 500 hf (by norm_num [nodeW2]) (by norm_num [setSimple, stB])
  have hns : ¬ (((500 : ℚ) * setSimple.disk_weight
      - ((stB.active_downloads : ℚ)) * setSimple.download_weight
      - stB.global_download_rate_mbps * setSimple.bandwidth_weight)
    * (if nodeW2.weight = 0 then 1 else nodeW2.weight)) < setSimple.min_score := by
    norm_num [setSimple, stB, nodeW2, subW]
  refine ⟨?_, (h5.2.2 hns).1⟩
  rw [h5.1]
  norm_num [setSimple, stB, nodeW2, subW]

/-! ### Claim C7: evaluation-round invariants -/

theorem score_node_config (settings : DispatcherSettings) (node : NodeConfig)
    (state : NodeState) (metrics : NodeMetrics) (size : ℚ) :
    (score_node settings node state metrics size).config = node := rfl

theorem score_node_state (settings : DispatcherSettings) (node : NodeConfig)
    (state : NodeState) (metrics : NodeMetrics) (size : ℚ) :
    (score_node settings node state metrics size).state = some state := rfl

theorem score_node_reachable (settings : DispatcherSettings)
    (node : NodeConfig) (state : NodeState) (metrics : NodeMetrics)
    (size : ℚ) :
    (score_node settings node state metrics size).metrics.reachable =
      metrics.reachable := rfl

theorem score_node_min_score (settings : DispatcherSettings)
    (node : NodeConfig) (state : NodeState) (metrics : NodeMetrics)
    (size : ℚ) (q : ℚ)
    (hq : (score_node settings node state metrics size).score = some q)
    (he : (score_node settings node state metrics size).excluded = false) :
    settings.min_score ≤ q := by
  unfold score_node at hq he
  dsimp only at hq he
  generalize hF : (if size ≠ 0 ∧ state.free_disk_gb.isSome then
      some (max 0 (state.free_disk_gb.getD 0 - size))
    else state.free_disk_gb) = F at hq he
  cases F with
  | none => split_ifs at hq <;> simp_all
  | some f => split_ifs at hq he <;> simp_all <;> try linarith

/-- **C7**: a round yields exactly one snapshot per configured node, in
declaration order; an unreachable node's snapshot is excluded with no
telemetry, no score and reason `api_unreachable`; and a non-excluded
snapshot carrying a score has that score at or above the policy minimum. -/
theorem evaluate_round_invariants (config : AppConfig)
    (probe : String → Option NodeState) (size : ℚ) :
    (evaluate_nodes config probe size).map (fun s => s.config) =
      config.nodes ∧
    (∀ s ∈ evaluate_nodes config probe size, s.metrics.reachable = false →
      s.excluded = true ∧ s.state = none ∧ s.metrics.free_disk_gb = none ∧
      s.score = none ∧ s.metrics.score = none ∧
      s.metrics.excluded_reason = some "api_unreachable") ∧
    (∀ s ∈ evaluate_nodes config probe size, ∀ q, s.score = some q →
      s.excluded = false → config.dispatcher.min_score ≤ q) := by
  refine ⟨?_, fun s hs hr => ?_, fun s hs q hq he => ?_⟩
  · unfold evaluate_nodes
    rw [List.map_map]
    have hid : ∀ node : NodeConfig,
        ((fun s : ScoredNode => s.config) ∘ fun node =>
          match gather_node_state probe node with
          | (none, metrics) =>
            { config := node, state := none, metrics := metrics,
              score := none, excluded := true }
          | (some state, metrics) =>
            score_node config.dispatcher node state metrics size) node =
        node := by
      intro node
      dsimp only [Function.comp]
      unfold gather_node_state
      cases probe node.name <;> rfl
    calc List.map _ config.nodes = List.map id config.nodes :=
          List.map_congr_left fun node _ => hid node
      _ = config.nodes := List.map_id config.nodes
  · obtain ⟨node, _, rfl⟩ := List.mem_map.mp hs
    revert hr
    unfold gather_node_state
    cases hp : probe node.name with
    | none => intro _; exact ⟨rfl, rfl, rfl, rfl, rfl, rfl⟩
    | some st =>
      intro hr
      exact absurd hr (by rw [score_node_reachable]; simp)
  · obtain ⟨node, _, rfl⟩ := List.mem_map.mp hs
    revert hq he
    unfold gather_node_state
    cases hp : probe node.name with
    | none => intro hq _; exact absurd hq (by simp)
    | some st => exact fun hq he => score_node_min_score _ _ _ _ _ _ hq he

/-- C7 witness: with `node-a` down and `node-b` healthy, the round yields
one snapshot per node in order; the first is the canonical unreachable
snapshot `s0W`, which the round invariants mark excluded with reason
`api_unreachable`. -/
theorem evaluate_round_invariants_witness :
    (evaluate_nodes cfg2 probe7 0).map (fun s => s.config) = cfg2.nodes ∧
    s0W.excluded = true ∧
    s0W.metrics.excluded_reason = some "api_unreachable" := by
  have h := evaluate_round_invariants cfg2 probe7 0
  have hev : evaluate_nodes cfg2 probe7 0 = [s0W, sBW] := by
    norm_num [evaluate_nodes, gather_node_state, score_node, probe7, cfg2,
      nodeA, nodeB, stB, setW, subW, trkOn, s0W, sBW,
      (by decide : ¬ ("node-a" : String) = "node-b")]
  have hmem : s0W ∈ evaluate_nodes cfg2 probe7 0 := by
    rw [hev]
    exact List.mem_cons_self _ _
  have h2 := h.2.1 s0W hmem rfl
  exact ⟨h.1, h2.1, h2.2.2.2.2.2⟩

/-! ### Claim C3: size estimate in the dry-run decision path -/

/-- **C3** (code bug exhibit): the spec mandates subtracting a positive
size estimate in *every* evaluation path, but `debug_decision` calls
`evaluate_nodes()` without the request's size.  Concretely: one node with
`min_free_gb = 100` and 150 GiB free, request of 60 GiB.  `submit`
subtracts (effective free 90 < 100) and rejects with `no_eligible_nodes`,
while the dry run scores the same node at 150, keeps it eligible and
selects it. -/
theorem debug_decision_size_code_bug :
    0 < reqC3.size_estimate_gb ∧
    (debug_decision cfgC3 probeC3 reqC3).selected_node = some "n1" ∧
    (debug_decision cfgC3 probeC3 reqC3).reason = "highest_score" ∧
    (submit sha1W 0 probeC3 smOk (initDispatcher cfgC3) reqC3).1.status =
      "rejected" ∧
    (submit sha1W 0 probeC3 smOk (initDispatcher cfgC3) reqC3).1.reason =
      "no_eligible_nodes" := by
  refine ⟨by norm_num [reqC3], ?_, ?_, ?_, ?_⟩
  · norm_num [debug_decision, evaluate_nodes, gather_node_state, score_node,
      sortEligible, scoreKey, scoreGE, cfgC3, probeC3, reqC3, nodeC, stC,
      setW, subW, trkOn]
  · norm_num [debug_decision, evaluate_nodes, gather_node_state, score_node,
      sortEligible, scoreKey, scoreGE, cfgC3, probeC3, reqC3, nodeC, stC,
      setW, subW, trkOn]
  · norm_num [submit, initDispatcher, is_duplicate, generate_request_id,
      strContains, afterFirst, beforeFirst, pySplit, pySplitF, dictLookup,
      evaluate_nodes, gather_node_state, score_node, sortEligible, scoreKey,
      scoreGE, attempt_candidates, record_decision, appendBounded, cfgC3,
      probeC3, reqC3, nodeC, stC, setW, subW, trkOn, sha1W, smOk]
  · norm_num [submit, initDispatcher, is_duplicate, generate_request_id,
      strContains, afterFirst, beforeFirst, pySplit, pySplitF, dictLookup,
      evaluate_nodes, gather_node_state, score_node, sortEligible, scoreKey,
      scoreGE, attempt_candidates, record_decision, appendBounded, cfgC3,
      probeC3, reqC3, nodeC, stC, setW, subW, trkOn, sha1W, smOk]

/-! ### Claim C1: the admission state machine -/

theorem attempt_candidates_ok (submitMagnet : String → Except String String)
    (node : ScoredNode) (hsh : String)
    (hnode : submitMagnet node.config.name = .ok hsh) :
    ∀ (pre : List ScoredNode) (post : List ScoredNode) (e0 : Option String),
      (∀ p ∈ pre, ∃ e, submitMagnet p.config.name = .error e) →
      attempt_candidates submitMagnet (pre ++ node :: post) e0 =
        .ok node.config.name := by
  intro pre
  induction pre with
  | nil =>
    intro post e0 _
    rw [List.nil_append]
    unfold attempt_candidates
    rw [hnode]
  | cons p ps ih =>
    intro post e0 hpre
    obtain ⟨e, he⟩ := hpre p (by simp)
    rw [List.cons_append]
    unfold attempt_candidates
    rw [he]
    exact ih post (some e) fun x hx => hpre x (by simp [hx])

theorem attempt_candidates_error
    (submitMagnet : String → Except String String) :
    ∀ (cs : List ScoredNode) (lnode : ScoredNode) (e : String)
      (e0 : Option String),
      (∀ p ∈ cs, ∃ e', submitMagnet p.config.name = .error e') →
      cs.getLast? = some lnode →
      submitMagnet lnode.config.name = .error e →
      attempt_candidates submitMagnet cs e0 = .error (some e) := by
  intro cs
  induction cs with
  | nil => intro lnode e e0 _ hl _; simp at hl
  | cons c cs2 ih =>
    intro lnode e e0 hall hl hle
    cases cs2 with
    | nil =>
      have hc : c = lnode := by simpa using hl
      subst hc
      unfold attempt_candidates
      rw [hle]
      rfl
    | cons c2 cs3 =>
      obtain ⟨e', he'⟩ := hall c (by simp)
      unfold attempt_candidates
      rw [he']
      rw [List.getLast?_cons_cons] at hl
      exact ih lnode e (some e') (fun x hx => hall x (by simp [hx])) hl hle

/-- Under the non-duplicate hypothesis, `submit` runs its evaluation part
verbatim. -/
theorem submit_eval_form (sha1hex : String → String) (now : ℚ)
    (probe : String → Option NodeState)
    (submitMagnet : String → Except String String)
    (d : DispatcherState) (req : SubmitRequest)
    (hnd : ∀ tr, d.tracker = some tr →
      d.config.request_tracking.check_duplicates = true →
      (is_duplicate sha1hex now tr req).1 = false) :
    submit sha1hex now probe submitMagnet d req =
      (let scored_nodes := evaluate_nodes d.config probe req.size_estimate_gb
       let eligible := sortEligible scored_nodes
       let attempted_metrics := scored_nodes.map fun n => n.metrics
       if eligible.isEmpty then
         let decision : SubmitDecision :=
           { selected_node := none, reason := "no_eligible_nodes",
             status := "rejected", attempted_nodes := attempted_metrics }
         (decision, record_decision now d req decision)
       else
         let max_retries : Int :=
           max 1 d.config.dispatcher.submission.max_retries
         match attempt_candidates submitMagnet
             (eligible.take max_retries.toNat) none with
         | .ok nodeName =>
           let decision : SubmitDecision :=
             { selected_node := some nodeName, reason := "highest_score",
               status := "accepted", attempted_nodes := attempted_metrics }
           let d1 := record_decision now d req decision
           let d2 :=
             match d1.tracker with
             | some tr =>
               let tr1 := (add_request sha1hex now tr req (some req.category)
                 none (some nodeName)).2
               { d1 with
                 tracker := some (update_status tr1
                   (generate_request_id sha1hex req.magnet) "downloading"
                   (some nodeName)) }
             | none => d1
           (decision, d2)
         | .error last_error =>
           let decision : SubmitDecision :=
             { selected_node := none,
               reason := "submission_failed_all_nodes: " ++ pyStr last_error,
               status := "failed", attempted_nodes := attempted_metrics }
           (decision, record_decision now d req decision)) := by
  have hdup0 : (match d.tracker with
      | some tr =>
        if d.config.request_tracking.check_duplicates then
          match is_duplicate sha1hex now tr req with
          | (true, some existing) => some existing
          | _ => none
        else none
      | none => none) = (none : Option TrackedRequest) := by
    cases htr : d.tracker with
    | none => rfl
    | some tr =>
      dsimp only
      by_cases hchk : d.config.request_tracking.check_duplicates
      · have hfst := hnd tr htr (by simpa using hchk)
        rw [if_pos hchk]
        cases hdv : is_duplicate sha1hex now tr req with
        | mk b o =>
          rw [hdv] at hfst
          simp only at hfst
          subst hfst
          rfl
      · rw [if_neg hchk]
  conv =>
    lhs
    unfold submit
  rw [hdup0]

/-- **C1 (amended)**: `submit` implements the admission state machine.  If
tracking is enabled, *duplicate checking is enabled* (the amendment), and
the request is a duplicate, it returns `rejected` with reason
`duplicate_of_existing_request: <name>` and no attempted nodes, without
evaluating nodes (the decision is independent of the probe and submission
backends).  Otherwise it evaluates all configured nodes; `eligible` is the
non-excluded snapshots carrying a score, sorted score-descending, a
permutation of the filtered round with ties (and all order decided by the
comparison) kept in declaration order; empty `eligible` yields `rejected` /
`no_eligible_nodes`; else the first `min(max(1, maxRetries), |eligible|)`
candidates are attempted in order — the first success yields `accepted` /
`highest_score` with that node's name, and if all attempted candidates
fail the result is `failed` with reason `"submission_failed_all_nodes: "`
plus the last error.  Every decision that reaches evaluation carries one
metrics entry per configured node, in declaration order. -/
theorem submit_admission_machine (sha1hex : String → String) (now : ℚ)
    (probe : String → Option NodeState)
    (submitMagnet : String → Except String String)
    (d : DispatcherState) (req : SubmitRequest) :
    (∀ tr ex, d.tracker = some tr →
      d.config.request_tracking.check_duplicates = true →
      is_duplicate sha1hex now tr req = (true, some ex) →
      (submit sha1hex now probe submitMagnet d req).1 =
        { selected_node := ex.selected_node,
          reason := "duplicate_of_existing_request: " ++ ex.name,
          status := "rejected", attempted_nodes := [] }) ∧
    (∀ tr ex, d.tracker = some tr →
      d.config.request_tracking.check_duplicates = true →
      is_duplicate sha1hex now tr req = (true, some ex) →
      ∀ (probe' : String → Option NodeState)
        (submitMagnet' : String → Except String String),
        (submit sha1hex now probe' submitMagnet' d req).1 =
          (submit sha1hex now probe submitMagnet d req).1) ∧
    ((∀ tr, d.tracker = some tr →
        d.config.request_tracking.check_duplicates = true →
        (is_duplicate sha1hex now tr req).1 = false) →
      (submit sha1hex now probe submitMagnet d req).1.attempted_nodes =
        (evaluate_nodes d.config probe req.size_estimate_gb).map
          (fun n => n.metrics) ∧
      (submit sha1hex now probe submitMagnet d req).1.attempted_nodes.length =
        d.config.nodes.length ∧
      (submit sha1hex now probe submitMagnet d
          req).1.attempted_nodes.map (fun m => m.name) =
        d.config.nodes.map (fun n => n.name)) ∧
    List.Sorted scoreGE
      (sortEligible (evaluate_nodes d.config probe req.size_estimate_gb)) ∧
    (sortEligible (evaluate_nodes d.config probe req.size_estimate_gb)).Perm
      ((evaluate_nodes d.config probe req.size_estimate_gb).filter
        fun n => !n.excluded && n.score.isSome) ∧
    (∀ a b : ScoredNode, scoreGE a b →
      List.Sublist [a, b]
        ((evaluate_nodes d.config probe req.size_estimate_gb).filter
          fun n => !n.excluded && n.score.isSome) →
      List.Sublist [a, b]
        (sortEligible (evaluate_nodes d.config probe req.size_estimate_gb))) ∧
    ((∀ tr, d.tracker = some tr →
        d.config.request_tracking.check_duplicates = true →
        (is_duplicate sha1hex now tr req).1 = false) →
      sortEligible (evaluate_nodes d.config probe req.size_estimate_gb) = [] →
      (submit sha1hex now probe submitMagnet d req).1 =
        { selected_node := none, reason := "no_eligible_nodes",
          status := "rejected",
          attempted_nodes :=
            (evaluate_nodes d.config probe req.size_estimate_gb).map
              fun n => n.metrics }) ∧
    ((∀ tr, d.tracker = some tr →
        d.config.request_tracking.check_duplicates = true →
        (is_duplicate sha1hex now tr req).1 = false) →
      ∀ (pre : List ScoredNode) (node : ScoredNode) (post : List ScoredNode),
        (sortEligible (evaluate_nodes d.config probe
            req.size_estimate_gb)).take
          (max 1 d.config.dispatcher.submission.max_retries).toNat =
          pre ++ node :: post →
        (∀ p ∈ pre, ∃ e, submitMagnet p.config.name = .error e) →
        (∃ hsh, submitMagnet node.config.name = .ok hsh) →
        (submit sha1hex now probe submitMagnet d req).1 =
          { selected_node := some node.config.name,
            reason := "highest_score", status := "accepted",
            attempted_nodes :=
              (evaluate_nodes d.config probe req.size_estimate_gb).map
                fun n => n.metrics }) ∧
    ((∀ tr, d.tracker = some tr →
        d.config.request_tracking.check_duplicates = true →
        (is_duplicate sha1hex now tr req).1 = false) →
      sortEligible (evaluate_nodes d.config probe req.size_estimate_gb) ≠
        [] →
      (∀ p ∈ (sortEligible (evaluate_nodes d.config probe
            req.size_estimate_gb)).take
          (max 1 d.config.dispatcher.submission.max_retries).toNat,
        ∃ e, submitMagnet p.config.name = .error e) →
      ∀ (lnode : ScoredNode) (e : String),
        ((sortEligible (evaluate_nodes d.config probe
            req.size_estimate_gb)).take
          (max 1 d.config.dispatcher.submission.max_retries).toNat).getLast? =
          some lnode →
        submitMagnet lnode.config.name = .error e →
        (submit sha1hex now probe submitMagnet d req).1 =
          { selected_node := none,
            reason := "submission_failed_all_nodes: " ++ e,
            status := "failed",
            attempted_nodes :=
              (evaluate_nodes d.config probe req.size_estimate_gb).map
                fun n => n.metrics }) := by
  have hdupsome : ∀ tr ex, d.tracker = some tr →
      d.config.request_tracking.check_duplicates = true →
      is_duplicate sha1hex now tr req = (true, some ex) →
      ∀ (probe0 : String → Option NodeState)
        (sm0 : String → Except String String),
        (submit sha1hex now probe0 sm0 d req).1 =
          { selected_node := ex.selected_node,
            reason := "duplicate_of_existing_request: " ++ ex.name,
            status := "rejected", attempted_nodes := [] } := by
    intro tr ex htr hchk hdup probe0 sm0
    have hdup2 : (match d.tracker with
        | some tr' =>
          if d.config.request_tracking.check_duplicates then
            match is_duplicate sha1hex now tr' req with
            | (true, some existing) => some existing
            | _ => none
          else none
        | none => none) = some ex := by
      rw [htr]
      dsimp only
      rw [if_pos hchk, hdup]
    conv =>
      lhs
      unfold submit
    rw [hdup2]
  refine ⟨fun tr ex htr hchk hdup =>
      hdupsome tr ex htr hchk hdup probe submitMagnet,
    fun tr ex htr hchk hdup probe' submitMagnet' => by
      rw [hdupsome tr ex htr hchk hdup probe' submitMagnet',
        hdupsome tr ex htr hchk hdup probe submitMagnet],
    fun hnd => ?_,
    List.sorted_insertionSort scoreGE _,
    List.perm_insertionSort scoreGE _,
    fun a b hab hsub => List.pair_sublist_insertionSort hab hsub,
    fun hnd hemp => ?_,
    fun hnd pre node post htake hpre hok => ?_,
    fun hnd hne hall lnode e hlast herr => ?_⟩
  · -- attempted-nodes bookkeeping in every evaluation-path decision
    have hatt : (submit sha1hex now probe submitMagnet d req).1.attempted_nodes =
        (evaluate_nodes d.config probe req.size_estimate_gb).map
          fun n => n.metrics := by
      rw [submit_eval_form sha1hex now probe submitMagnet d req hnd]
      dsimp only
      by_cases hemp :
          (sortEligible (evaluate_nodes d.config probe
            req.size_estimate_gb)).isEmpty
      · rw [if_pos hemp]
      · rw [if_neg hemp]
        cases hA : attempt_candidates submitMagnet
            ((sortEligible (evaluate_nodes d.config probe
              req.size_estimate_gb)).take
              (max 1 d.config.dispatcher.submission.max_retries).toNat)
            none with
        | ok nodeName => rfl
        | error last_error => rfl
    refine ⟨hatt, ?_, ?_⟩
    · rw [hatt]
      unfold evaluate_nodes
      rw [List.length_map, List.length_map]
    · rw [hatt]
      unfold evaluate_nodes
      rw [List.map_map, List.map_map]
      refine List.map_congr_left fun node _ => ?_
      dsimp only [Function.comp]
      unfold gather_node_state
      cases probe node.name <;> rfl
  · -- no eligible nodes
    rw [submit_eval_form sha1hex now probe submitMagnet d req hnd]
    dsimp only
    rw [if_pos (by rw [hemp]; rfl)]
  · -- first success
    have hne : sortEligible (evaluate_nodes d.config probe
        req.size_estimate_gb) ≠ [] := by
      intro hcontra
      rw [hcontra, List.take_nil] at htake
      exact absurd htake.symm (List.append_ne_nil_of_right_ne_nil pre
        (List.cons_ne_nil node post))
    obtain ⟨hsh, hoknode⟩ := hok
    rw [submit_eval_form sha1hex now probe submitMagnet d req hnd]
    dsimp only
    rw [if_neg (by simp [List.isEmpty_iff, hne])]
    rw [htake, attempt_candidates_ok submitMagnet node hsh hoknode pre post
      none hpre]
    try rfl
  · -- all candidates fail
    rw [submit_eval_form sha1hex now probe submitMagnet d req hnd]
    dsimp only
    rw [if_neg (by simp [List.isEmpty_iff, hne])]
    rw [attempt_candidates_error submitMagnet _ lnode e none hall hlast herr]
    try rfl

/-- **C1 counterexample**: with tracking *enabled* but duplicate checking
*disabled*, a request that is a duplicate (as `is_duplicate` itself
reports) is not rejected: evaluation proceeds and the submission is
accepted.  The claim's premise "tracking is enabled and the request is a
duplicate" is therefore not sufficient; `check_duplicates` must hold too. -/
theorem submit_dup_claim_counterexample :
    cfgDup.request_tracking.enabled = true ∧
    cfgDup.request_tracking.check_duplicates = false ∧
    dDup.tracker = some trDup ∧
    (is_duplicate sha1W 10 trDup reqDup).1 = true ∧
    (submit sha1W 10 probe2 smOk dDup reqDup).1.status = "accepted" := by
  refine ⟨rfl, rfl, rfl, ?_, ?_⟩
  · norm_num [is_duplicate, generate_request_id, strContains, afterFirst,
      beforeFirst, pySplit, pySplitF, dictLookup, dictSet, dictAppend,
      trDup, add_request, emptyTracker, reqDup, sha1W, trackedOf]
  · norm_num [submit, dDup, cfgDup, trkNoDup, evaluate_nodes,
      gather_node_state, score_node, sortEligible, scoreKey, scoreGE,
      attempt_candidates, record_decision, appendBounded, probe2, smOk,
      nodeA, stA, setW, subW, reqDup, sha1W]

/-- C1 witness ("retry then succeed", spec scenario 5): two healthy nodes
scored 979 and 490 for a 10 GiB request; `node-a` fails to accept, the
retry budget moves on to `node-b`, which succeeds; the decision is
`accepted` with `node-b` selected and one metrics entry per configured
node. -/
theorem submit_admission_machine_witness :
    (submit sha1W 5 probe2 sm2 (initDispatcher cfg2) req2).1.status =
      "accepted" ∧
    (submit sha1W 5 probe2 sm2 (initDispatcher cfg2) req2).1.selected_node =
      some "node-b" ∧
    (submit sha1W 5 probe2 sm2 (initDispatcher cfg2)
      req2).1.attempted_nodes.length = 2 := by
  have h := submit_admission_machine sha1W 5 probe2 sm2 (initDispatcher cfg2)
    req2
  have hnd : ∀ tr, (initDispatcher cfg2).tracker = some tr →
      (initDispatcher cfg2).config.request_tracking.check_duplicates = true →
      (is_duplicate sha1W 5 tr req2).1 = false := by
    intro tr htr _
    have htr2 : some ({ requests := [], by_category := [] } :
        RequestTracker) = some tr := htr
    rw [← Option.some.inj htr2]
    norm_num [is_duplicate, dictLookup]
  have htake : (sortEligible (evaluate_nodes (initDispatcher cfg2).config
        probe2 req2.size_estimate_gb)).take
      (max 1 (initDispatcher
        cfg2).config.dispatcher.submission.max_retries).toNat =
      [sAW10] ++ sBW10 :: [] := by
    norm_num [sortEligible, evaluate_nodes, gather_node_state, score_node,
      scoreKey, scoreGE, List.insertionSort, List.orderedInsert, probe2,
      cfg2, nodeA, nodeB, stA, stB, setW, subW, trkOn, req2, initDispatcher,
      sAW10, sBW10,
      (by decide : ¬ ("node-b" : String) = "node-a")]
  have hpre : ∀ p ∈ [sAW10], ∃ e, sm2 p.config.name = .error e := by
    intro p hp
    rw [List.mem_singleton] at hp
    subst hp
    exact ⟨"boom", rfl⟩
  have hok : ∃ hsh, sm2 sBW10.config.name = .ok hsh := ⟨"cafebabe", rfl⟩
  have hH := h.2.2.2.2.2.2.2.1 hnd [sAW10] sBW10 [] htake hpre hok
  have hC := (h.2.2.1 hnd).2.1
  rw [hH]
  refine ⟨rfl, rfl, ?_⟩
  rw [← hH]
  exact hC.trans rfl

end Dispatch
